import Mathlib

/-!
Verification development for the CineMatch movie application.

The definitions below are a shallow embedding of the server storage layer
(class DatabaseStorage, src/unnamed/part_001) over the database schema
declared in src/shared/schema.ts.  SQL tables are embedded as Lean lists of
row structures; a serial primary-key column is embedded as an explicit
next-id counter in the table state.  SQL NULL columns are embedded as
Option; a SQL comparison against a NULL operand yields NULL, hence does not
select the row, which the embedding renders as the Bool false.  JavaScript
truthiness tests on optional numeric filter fields (for example
`if (filters.ratingMin)`) are embedded as: present and nonzero.
-/

namespace CineMatch

/-- Element of the movies.genres jsonb column: an array of
objects with numeric id and name (schema.ts line 51). -/
structure GenreTag where
  id : Nat
  name : String
deriving DecidableEq

/-- Row of the movies table (schema.ts lines 40-57).  Display-only columns
(posterPath, backdropPath, adult flag, timestamps) are omitted: no query in
the storage layer filters, sorts or joins on them.  The decimal columns
voteAverage and popularity are embedded as integers, which preserves every
comparison and ordering the storage layer performs on them. -/
structure Movie where
  id : Nat
  tmdbId : Int
  title : String
  overview : Option String
  releaseDate : Option String
  runtime : Option Int
  voteAverage : Option Int
  voteCount : Option Int
  genres : Option (List GenreTag)
  originalLanguage : Option String
  popularity : Option Int
deriving DecidableEq

/-- Runtime bucket enum of movieFilterSchema (schema.ts line 201). -/
inductive RuntimeBucket where
  | any
  | under90
  | between90and120
  | over120
deriving DecidableEq

/-- Sort key enum of movieFilterSchema (schema.ts line 203). -/
inductive SortKey where
  | popularity
  | rating
  | releaseDateKey
  | title
deriving DecidableEq

/-- Sort direction enum of movieFilterSchema (schema.ts line 204). -/
inductive SortDir where
  | asc
  | desc
deriving DecidableEq

/-- The MovieFilter object (movieFilterSchema, schema.ts lines 194-207).
page and limit carry zod defaults (1 and 20) but any number may be
submitted; they are embedded as Nat. -/
structure MovieFilter where
  genres : Option (List Nat) := none
  regions : Option (List String) := none
  releaseYearFrom : Option Int := none
  releaseYearTo : Option Int := none
  ratingMin : Option Int := none
  ratingMax : Option Int := none
  runtime : Option RuntimeBucket := none
  ageRating : Option (List String) := none
  sortBy : Option SortKey := none
  sortOrder : Option SortDir := none
  page : Nat := 1
  limit : Nat := 20
deriving DecidableEq

/-- Nominal reading of `YEAR(release_date)` on the varchar release-date
column (date strings have the shape YYYY-MM-DD, so the year would be the
numeric value of the first four characters; NULL or unparseable yields
NULL).  The YEAR function is MySQL syntax and does not exist in the
PostgreSQL database this repository runs against, so a query whose WHERE
clause contains this fragment fails with an undefined-function error
instead of computing anything: see usesYearFn and getMoviesPg.  This
reading serves only to carry the fragment in the conditions list; no
theorem below asserts it as executed selection behavior. -/
def yearOf : Option String → Option Nat
  | none => none
  | some s => (s.take 4).toNat?

/-- Nominal reading of the genre fragment (storage lines 109-114): an OR
over the requested genre ids, each an id-membership test against the movie
genre array, which is what the spec intends.  The fragment calls
JSON_SEARCH, which does not exist in PostgreSQL (and even under MySQL
matches only string scalars, never the numeric ids stored in the genres
column), so a genre-filtered query fails with an undefined-function error:
see usesJsonSearch and getMoviesPg.  This reading serves only to carry the
fragment in the conditions list; no theorem below asserts it as executed
selection behavior. -/
def genreCond (ids : List Nat) (m : Movie) : Bool :=
  ids.any (fun gid => (m.genres.getD []).any (fun g => g.id == gid))

/-- Nominal reading of the condition pushed for releaseYearFrom (storage
line 117); built on YEAR, hence never executed by PostgreSQL — see
yearOf and getMoviesPg. -/
def yearFromCond (y : Int) (m : Movie) : Bool :=
  match yearOf m.releaseDate with
  | some yr => decide (y ≤ (yr : Int))
  | none => false

/-- Nominal reading of the condition pushed for releaseYearTo (storage
line 121); built on YEAR, hence never executed by PostgreSQL — see
yearOf and getMoviesPg. -/
def yearToCond (y : Int) (m : Movie) : Bool :=
  match yearOf m.releaseDate with
  | some yr => decide ((yr : Int) ≤ y)
  | none => false

/-- Condition pushed for ratingMin (storage line 125). -/
def ratingMinCond (v : Int) (m : Movie) : Bool :=
  match m.voteAverage with
  | some r => decide (v ≤ r)
  | none => false

/-- Condition pushed for ratingMax (storage line 129). -/
def ratingMaxCond (v : Int) (m : Movie) : Bool :=
  match m.voteAverage with
  | some r => decide (r ≤ v)
  | none => false

/-- Condition pushed for a runtime bucket other than any
(storage lines 132-144). -/
def runtimeCond (b : RuntimeBucket) (m : Movie) : Bool :=
  match b, m.runtime with
  | .under90, some r => decide (r < 90)
  | .between90and120, some r => decide (90 ≤ r ∧ r ≤ 120)
  | .over120, some r => decide (120 < r)
  | _, _ => false

/-- The conditions array built by getMovies (storage lines 107-144), in
push order.  Each branch mirrors one `if` of the source: the genre branch
tests presence and nonemptiness of the list; each numeric branch tests
JavaScript truthiness (present and nonzero); the runtime branch tests
presence and difference from the any bucket.  The regions and ageRating
filter fields are never consulted by getMovies. -/
def movieConditions (f : MovieFilter) : List (Movie → Bool) :=
  (match f.genres with
   | some ids => if ids.length > 0 then [genreCond ids] else []
   | none => []) ++
  (match f.releaseYearFrom with
   | some y => if y ≠ 0 then [yearFromCond y] else []
   | none => []) ++
  (match f.releaseYearTo with
   | some y => if y ≠ 0 then [yearToCond y] else []
   | none => []) ++
  (match f.ratingMin with
   | some v => if v ≠ 0 then [ratingMinCond v] else []
   | none => []) ++
  (match f.ratingMax with
   | some v => if v ≠ 0 then [ratingMaxCond v] else []
   | none => []) ++
  (match f.runtime with
   | some b => if b ≠ .any then [runtimeCond b] else []
   | none => [])

/-- WHERE clause of both the page query and the count query: the AND of all
pushed conditions (storage lines 146-150); with no condition every row is
selected. -/
def moviePred (f : MovieFilter) (m : Movie) : Bool :=
  (movieConditions f).all (fun c => c m)

/-- Comparison used for ORDER BY ... DESC on a nullable integer column:
PostgreSQL places NULL first in descending order. -/
def optIntDescLe : Option Int → Option Int → Bool
  | none, _ => true
  | some _, none => false
  | some x, some y => decide (y ≤ x)

/-- Comparison used for ORDER BY ... ASC on a nullable integer column:
PostgreSQL places NULL last in ascending order. -/
def optIntAscLe : Option Int → Option Int → Bool
  | _, none => true
  | none, some _ => false
  | some x, some y => decide (x ≤ y)

/-- Comparison used for ORDER BY ... DESC on the nullable varchar
release-date column (lexicographic on the date strings). -/
def optStrDescLe : Option String → Option String → Bool
  | none, _ => true
  | some _, none => false
  | some x, some y => decide (y ≤ x)

/-- Comparison used for ORDER BY ... ASC on the nullable varchar
release-date column. -/
def optStrAscLe : Option String → Option String → Bool
  | _, none => true
  | none, some _ => false
  | some x, some y => decide (x ≤ y)

/-- The ORDER BY comparison selected by the sort switch of getMovies
(storage lines 156-168): one key column, ascending or descending. -/
def movieLeB : SortKey → SortDir → Movie → Movie → Bool
  | .popularity, .desc, a, b => optIntDescLe a.popularity b.popularity
  | .popularity, .asc, a, b => optIntAscLe a.popularity b.popularity
  | .rating, .desc, a, b => optIntDescLe a.voteAverage b.voteAverage
  | .rating, .asc, a, b => optIntAscLe a.voteAverage b.voteAverage
  | .releaseDateKey, .desc, a, b => optStrDescLe a.releaseDate b.releaseDate
  | .releaseDateKey, .asc, a, b => optStrAscLe a.releaseDate b.releaseDate
  | .title, .desc, a, b => decide (b.title ≤ a.title)
  | .title, .asc, a, b => decide (a.title ≤ b.title)

/-- The ORDER BY comparison as a relation, for use with List.insertionSort. -/
def movieOrder (sb : SortKey) (so : SortDir) : Movie → Movie → Prop :=
  fun a b => movieLeB sb so a b = true

instance (sb : SortKey) (so : SortDir) : DecidableRel (movieOrder sb so) :=
  fun a b => inferInstanceAs (Decidable (movieLeB sb so a b = true))

/-- Effective sort key: `filters.sortBy || "popularity"` (storage line 153). -/
def effSortBy (f : MovieFilter) : SortKey := f.sortBy.getD .popularity

/-- Effective sort direction: `filters.sortOrder || "desc"` (storage line 154). -/
def effSortOrder (f : MovieFilter) : SortDir := f.sortOrder.getD .desc

/-- Effective page: `filters.page || 1` (storage line 171); a page of 0 is
JavaScript-falsy and falls back to 1. -/
def effPage (f : MovieFilter) : Nat := if f.page = 0 then 1 else f.page

/-- Effective limit: `filters.limit || 20` (storage line 172); a limit of 0
is JavaScript-falsy and falls back to 20. -/
def effLimit (f : MovieFilter) : Nat := if f.limit = 0 then 20 else f.limit

/-- Result shape of getMovies: a page of movies and the unpaginated total. -/
structure MoviesPage where
  movies : List Movie
  total : Nat
deriving DecidableEq

/-- The rows matching the WHERE clause, in ORDER BY order.  The database
sort is embedded as insertion sort under the selected comparison; any sort
satisfying the comparison is a faithful embedding since SQL fixes only the
ordering, and no claim depends on the placement of ties. -/
def sortedMatching (f : MovieFilter) (db : List Movie) : List Movie :=
  (db.filter (moviePred f)).insertionSort (movieOrder (effSortBy f) (effSortOrder f))

/-- DatabaseStorage.getMovies (storage lines 103-186) over a database state
given as the list of rows of the movies table: builds the WHERE conditions,
runs the page query (ordered, offset by (page-1)*limit, limited) and the
count query with the same WHERE clause, and pairs their results. -/
def getMovies (f : MovieFilter) (db : List Movie) : MoviesPage :=
  { movies := ((sortedMatching f db).drop ((effPage f - 1) * effLimit f)).take (effLimit f)
    total := (db.filter (moviePred f)).length }

/-- Whether the conditions built by getMovies include the genre fragment,
which calls JSON_SEARCH (storage line 111): true exactly when the genres
filter field is present and nonempty. -/
def usesJsonSearch (f : MovieFilter) : Bool :=
  match f.genres with
  | some ids => decide (ids.length > 0)
  | none => false

/-- Whether the conditions built by getMovies include a
YEAR(release_date) fragment (storage lines 117 and 121): true exactly when
releaseYearFrom or releaseYearTo is present and truthy. -/
def usesYearFn (f : MovieFilter) : Bool :=
  (match f.releaseYearFrom with
   | some y => decide (y ≠ 0)
   | none => false) ||
  (match f.releaseYearTo with
   | some y => decide (y ≠ 0)
   | none => false)

/-- DatabaseStorage.getMovies as executed against the repository's
PostgreSQL database (drizzle pg-core schema, PostgreSQL per the
deployment notes): JSON_SEARCH and YEAR are MySQL-only functions, so any
query whose WHERE clause includes the genre fragment or a year fragment is
rejected by PostgreSQL with an undefined-function error — both the page
and the count query carry the same WHERE clause, so the whole call fails
and returns no movies.  A call whose conditions use neither function runs
the queries and behaves as getMovies. -/
def getMoviesPg (f : MovieFilter) (db : List Movie) : Except String MoviesPage :=
  if usesJsonSearch f then
    .error "function json_search(jsonb, unknown, integer, unknown, unknown) does not exist"
  else if usesYearFn f then
    .error "function year(character varying) does not exist"
  else
    .ok (getMovies f db)

/-- Row of the watchlist and favorites tables (schema.ts lines 60-73): both
declare a serial primary key id, a user id, a movie id and a timestamp, and
no other constraint.  The timestamp is omitted: no claim consults it. -/
structure PairRow where
  id : Nat
  userId : String
  movieId : Nat
deriving DecidableEq

/-- State of the watchlist or favorites table: its rows plus the next value
of the serial id sequence. -/
structure PairTable where
  rows : List PairRow
  nextId : Nat
deriving DecidableEq

/-- Unique column sets declared on the watchlist table in schema.ts lines
60-65: only the serial primary key.  No unique constraint covers
(user_id, movie_id). -/
def watchlistUniqueColumnSets : List (List String) := [["id"]]

/-- Unique column sets declared on the favorites table in schema.ts lines
68-73: only the serial primary key. -/
def favoritesUniqueColumnSets : List (List String) := [["id"]]

/-- Unique column sets declared on the ratings table in schema.ts lines
76-83: only the serial primary key.  No unique constraint covers
(user_id, movie_id). -/
def ratingsUniqueColumnSets : List (List String) := [["id"]]

/-- Whether inserting a row with the given serial id conflicts with an
existing row.  With only the primary key declared unique, this is the only
conflict an INSERT ... ON CONFLICT DO NOTHING can observe. -/
def pkConflict (t : PairTable) (i : Nat) : Bool :=
  t.rows.any (fun r => r.id == i)

/-- DatabaseStorage.addToWatchlist (storage lines 223-230):
INSERT (userId, movieId) ON CONFLICT DO NOTHING.  A targetless ON CONFLICT
DO NOTHING skips the insert exactly when the new row violates some declared
unique constraint; on this table that is only the serial primary key, whose
fresh value never collides, so the insert always proceeds. -/
def addToWatchlist (u : String) (mv : Nat) (t : PairTable) : PairTable :=
  if pkConflict t t.nextId then t
  else { rows := t.rows ++ [⟨t.nextId, u, mv⟩], nextId := t.nextId + 1 }

/-- DatabaseStorage.removeFromWatchlist (storage lines 232-236):
DELETE WHERE userId = u AND movieId = mv.  SQL DELETE succeeds also when it
deletes zero rows, so the operation is a total function on table states. -/
def removeFromWatchlist (u : String) (mv : Nat) (t : PairTable) : PairTable :=
  { t with rows := t.rows.filter (fun r => !(r.userId == u && r.movieId == mv)) }

/-- DatabaseStorage.addToFavorites (storage lines 269-276): identical in
form to addToWatchlist, over the favorites table. -/
def addToFavorites (u : String) (mv : Nat) (t : PairTable) : PairTable :=
  if pkConflict t t.nextId then t
  else { rows := t.rows ++ [⟨t.nextId, u, mv⟩], nextId := t.nextId + 1 }

/-- DatabaseStorage.removeFromFavorites (storage lines 278-282). -/
def removeFromFavorites (u : String) (mv : Nat) (t : PairTable) : PairTable :=
  { t with rows := t.rows.filter (fun r => !(r.userId == u && r.movieId == mv)) }

/-- Number of rows of the table holding the given (user, movie) pair. -/
def pairCount (t : PairTable) (u : String) (mv : Nat) : Nat :=
  (t.rows.filter (fun r => r.userId == u && r.movieId == mv)).length

/-- Row of the ratings table (schema.ts lines 76-83); the decimal rating
value is embedded as an integer, timestamps omitted. -/
structure RatingRow where
  id : Nat
  userId : String
  movieId : Nat
  rating : Int
deriving DecidableEq

/-- State of the ratings table. -/
structure RatingsTable where
  rows : List RatingRow
  nextId : Nat
deriving DecidableEq

/-- DatabaseStorage.rateMovie (storage lines 315-325):
INSERT (userId, movieId, rating) ON CONFLICT (user_id, movie_id) DO UPDATE.
PostgreSQL accepts an ON CONFLICT clause with an explicit column target
only when some declared unique or exclusion constraint covers exactly those
columns; it rejects the whole statement otherwise, before any row is
touched.  The embedding checks the target against the constraints declared
in schema.ts and performs the upsert only when the check passes. -/
def rateMovie (u : String) (mv : Nat) (value : Int) (t : RatingsTable) :
    Except String RatingsTable :=
  if (["user_id", "movie_id"] ∈ ratingsUniqueColumnSets) then
    .ok (if t.rows.any (fun r => r.userId == u && r.movieId == mv) then
      { t with rows := t.rows.map (fun r =>
          if r.userId == u && r.movieId == mv then { r with rating := value } else r) }
    else
      { rows := t.rows ++ [⟨t.nextId, u, mv, value⟩], nextId := t.nextId + 1 })
  else
    .error "there is no unique or exclusion constraint matching the ON CONFLICT specification"

/-- State of the movies table: its rows plus the next serial id. -/
structure MoviesTable where
  rows : List Movie
  nextId : Nat
deriving DecidableEq

/-- Insert payload for the movies table (insertMovieSchema: all columns but
the serial id and the timestamps). -/
structure InsertMovie where
  tmdbId : Int
  title : String
  overview : Option String := none
  releaseDate : Option String := none
  runtime : Option Int := none
  voteAverage : Option Int := none
  voteCount : Option Int := none
  genres : Option (List GenreTag) := none
  originalLanguage : Option String := none
  popularity : Option Int := none
deriving DecidableEq

/-- DatabaseStorage.getMovieByTmdbId (storage lines 84-87): first row of
the movies table whose tmdb_id column equals the argument. -/
def getMovieByTmdbId (tm : Int) (rows : List Movie) : Option Movie :=
  (rows.filter (fun m => m.tmdbId == tm)).head?

/-- DatabaseStorage.createMovie (storage lines 89-92): plain INSERT of the
payload, the serial sequence supplying the id. -/
def createMovie (im : InsertMovie) (t : MoviesTable) : Movie × MoviesTable :=
  let m : Movie :=
    { id := t.nextId, tmdbId := im.tmdbId, title := im.title,
      overview := im.overview, releaseDate := im.releaseDate,
      runtime := im.runtime, voteAverage := im.voteAverage,
      voteCount := im.voteCount, genres := im.genres,
      originalLanguage := im.originalLanguage, popularity := im.popularity }
  (m, { rows := t.rows ++ [m], nextId := t.nextId + 1 })

/-- Modelled from the spec: the external sync routine (spec section 4.2)
lives in the server route code, which is not under src/; only its
collaborators getMovieByTmdbId and createMovie are.  Per the spec, for each
item of the external listing the routine checks local presence by external
id and, when the item is absent, inserts a new local row built from the
fetched details; a present item is left untouched. -/
def syncCategory (items : List InsertMovie) (t : MoviesTable) : MoviesTable :=
  items.foldl
    (fun st it =>
      if (getMovieByTmdbId it.tmdbId st.rows).isSome then st
      else (createMovie it st).2)
    t

/-- Modelled from the spec: the region/language filter condition the spec
ascribes to the filter composer (a movie passes when its original language
is in the requested region/language list).  Stated only to compare the
spec against getMovies, which never consults the regions field. -/
def regionCondSpec (regions : List String) (m : Movie) : Bool :=
  match m.originalLanguage with
  | some l => regions.contains l
  | none => false

/-- Sample movie for concrete counterexamples: French language, rating 8,
popularity 50. -/
def cm1 : Movie :=
  { id := 1, tmdbId := 100, title := "Amelie", overview := none,
    releaseDate := some "2001-04-25", runtime := some 122,
    voteAverage := some 8, voteCount := some 10,
    genres := some [⟨35, "Comedy"⟩],
    originalLanguage := some "fr", popularity := some 50 }

/-- Second sample movie: higher popularity than cm1. -/
def cm2 : Movie :=
  { id := 2, tmdbId := 101, title := "Bolt", overview := none,
    releaseDate := some "2008-11-21", runtime := some 96,
    voteAverage := some 6, voteCount := some 5, genres := none,
    originalLanguage := some "en", popularity := some 90 }

/-- Sample insert payload whose external id matches cm1. -/
def im1 : InsertMovie := { tmdbId := 100, title := "Amelie" }

/-- Sample movies-table state holding cm1. -/
def tbl1 : MoviesTable := { rows := [cm1], nextId := 3 }

/-- C1 (counterexample): the claim quantifies over every filter input, but
a requested limit of 0 is JavaScript-falsy, so getMovies silently replaces
it with the default 20; on a one-row table it returns one row, exceeding
the requested limit 0. -/
theorem getMovies_limit_zero_counterexample :
    ¬ ((getMovies { limit := 0 } [cm1]).movies.length ≤
        ({ limit := 0 : MovieFilter }).limit) := by
  decide

/-- C1 (amended): for every filter input, the page returned by getMovies
has length at most the effective limit (the requested limit, except that a
falsy 0 falls back to the default 20), and the returned total equals the
count of all movies satisfying the same predicate set without
pagination. -/
theorem getMovies_page_size_total (f : MovieFilter) (db : List Movie) :
    (getMovies f db).movies.length ≤ effLimit f ∧
    (getMovies f db).total = (db.filter (moviePred f)).length := by
  refine ⟨?_, rfl⟩
  simp only [getMovies, List.length_take]
  omega

/-- C3 (code_bug evaluation): the watchlist and favorites tables declare no
unique constraint on (user_id, movie_id) — only the serial primary key —
so the targetless ON CONFLICT DO NOTHING of addToWatchlist and
addToFavorites never observes a conflict, and adding the same (user, movie)
pair twice to an empty table leaves two rows, not one. -/
theorem addToWatchlist_duplicate_rows :
    pairCount (addToWatchlist "u1" 1 (addToWatchlist "u1" 1 ⟨[], 0⟩)) "u1" 1 = 2 ∧
    pairCount (addToFavorites "u1" 1 (addToFavorites "u1" 1 ⟨[], 0⟩)) "u1" 1 = 2 := by
  decide

/-- C4 (code_bug evaluation): the ratings table declares no unique
constraint on (user_id, movie_id), so the ON CONFLICT (user_id, movie_id)
DO UPDATE clause of rateMovie matches no arbiter index and PostgreSQL
rejects every rateMovie statement; no call ever stores or overwrites a
rating. -/
theorem rateMovie_always_errors (u : String) (mv : Nat) (v : Int) (t : RatingsTable) :
    rateMovie u mv v t =
      .error "there is no unique or exclusion constraint matching the ON CONFLICT specification" := by
  rw [rateMovie, if_neg (by decide)]

/-- C9: removing a watchlist or favorites entry is a delete by
(user, movie) key, total on every table state (deleting zero rows
succeeds); removing twice equals removing once, and removing a pair with no
entry leaves the table unchanged. -/
theorem remove_entry_idempotent (u : String) (mv : Nat) (t : PairTable) :
    removeFromWatchlist u mv (removeFromWatchlist u mv t) = removeFromWatchlist u mv t ∧
    removeFromFavorites u mv (removeFromFavorites u mv t) = removeFromFavorites u mv t ∧
    ((∀ r ∈ t.rows, ¬ (r.userId = u ∧ r.movieId = mv)) →
      removeFromWatchlist u mv t = t ∧ removeFromFavorites u mv t = t) := by
  refine ⟨?_, ?_, ?_⟩
  · simp [removeFromWatchlist, List.filter_filter]
  · simp [removeFromFavorites, List.filter_filter]
  · intro h
    have hrows : t.rows.filter (fun r => !(r.userId == u && r.movieId == mv)) = t.rows := by
      rw [List.filter_eq_self]
      intro r hr
      have hne := h r hr
      cases hb : (r.userId == u && r.movieId == mv)
      · simp [hb]
      · rw [Bool.and_eq_true] at hb
        exact absurd ⟨by simpa using hb.1, by simpa using hb.2⟩ hne
    constructor
    · unfold removeFromWatchlist
      rw [hrows]
    · unfold removeFromFavorites
      rw [hrows]

/-- C9 (witness): concrete instance at an empty table. -/
theorem remove_entry_idempotent_witness :
    removeFromWatchlist "u1" 1 (⟨[], 0⟩ : PairTable) = (⟨[], 0⟩ : PairTable) ∧
    removeFromFavorites "u1" 1 (⟨[], 0⟩ : PairTable) = (⟨[], 0⟩ : PairTable) :=
  (remove_entry_idempotent "u1" 1 ⟨[], 0⟩).2.2 (by decide)

/-- C10: getMovies tests presence of the numeric bound fields by
JavaScript truthiness, so a ratingMin, ratingMax, releaseYearFrom or
releaseYearTo of 0 contributes no condition and the result is the same as
with the field absent. -/
theorem zero_filter_values_ignored (f : MovieFilter) (db : List Movie) :
    getMovies { f with ratingMax := some 0 } db = getMovies { f with ratingMax := none } db ∧
    getMovies { f with ratingMin := some 0 } db = getMovies { f with ratingMin := none } db ∧
    getMovies { f with releaseYearFrom := some 0 } db =
      getMovies { f with releaseYearFrom := none } db ∧
    getMovies { f with releaseYearTo := some 0 } db =
      getMovies { f with releaseYearTo := none } db := by
  refine ⟨rfl, rfl, rfl, rfl⟩

/-- C7: when every item of the external listing is already resident locally
(present by external id), the sync routine leaves the movies table exactly
as it was: no row is inserted or modified, and the returned rows are the
existing ones. -/
theorem syncCategory_no_duplicates (items : List InsertMovie) (t : MoviesTable)
    (h : ∀ it ∈ items, (getMovieByTmdbId it.tmdbId t.rows).isSome = true) :
    syncCategory items t = t := by
  induction items with
  | nil => rfl
  | cons it rest ih =>
    have h1 : (getMovieByTmdbId it.tmdbId t.rows).isSome = true :=
      h it (List.mem_cons_self it rest)
    show List.foldl _
      (if (getMovieByTmdbId it.tmdbId t.rows).isSome then t else (createMovie it t).2)
      rest = t
    rw [if_pos h1]
    exact ih (fun x hx => h x (List.mem_cons_of_mem _ hx))

/-- C7 (witness): syncing a single item whose external id is already
resident leaves the table unchanged. -/
theorem syncCategory_no_duplicates_witness : syncCategory [im1] tbl1 = tbl1 :=
  syncCategory_no_duplicates [im1] tbl1 (by decide)

/-- C5 (counterexample): with page 1 and limit 1 over a two-row table, the
claimed offset of page times limit would skip the first matching row and
return the second, but getMovies computes the offset as
(page - 1) times limit, skips nothing, and returns the first row of the
sorted matching list. -/
theorem getMovies_offset_counterexample :
    (getMovies { page := 1, limit := 1 } [cm1, cm2]).movies ≠
      ((sortedMatching { page := 1, limit := 1 } [cm1, cm2]).drop
          (({ page := 1, limit := 1 : MovieFilter }).page *
            ({ page := 1, limit := 1 : MovieFilter }).limit)).take
        ({ page := 1, limit := 1 : MovieFilter }).limit := by
  decide

/-- C5 (amended): the page query of getMovies skips the first
(page - 1) times limit rows of the ordered matching list — element i of
the returned page is element (effPage - 1) * effLimit + i of that list —
and the page and count queries share the same predicate set. -/
theorem getMovies_offset_pagination (f : MovieFilter) (db : List Movie) (i : Nat)
    (hi : i < effLimit f) :
    (getMovies f db).movies[i]? =
      (sortedMatching f db)[(effPage f - 1) * effLimit f + i]? ∧
    (getMovies f db).total = (db.filter (moviePred f)).length := by
  refine ⟨?_, rfl⟩
  simp only [getMovies]
  rw [List.getElem?_take_of_lt hi, List.getElem?_drop]

/-- C5 (witness): concrete instance of the amended pagination law at the
default filter over an empty table. -/
theorem getMovies_offset_pagination_witness :
    (getMovies {} ([] : List Movie)).movies[0]? =
      (sortedMatching {} ([] : List Movie))[(effPage {} - 1) * effLimit {} + 0]? ∧
    (getMovies {} ([] : List Movie)).total =
      (([] : List Movie).filter (moviePred {})).length :=
  getMovies_offset_pagination {} [] 0 (by decide)

lemma all_num_chunk (v : Option Int) (c : Int → Movie → Bool) (m : Movie) :
    ((match v with
      | some y => if y ≠ 0 then [c y] else []
      | none => ([] : List (Movie → Bool))).all (fun k => k m) = true) ↔
      (∀ y, v = some y → y ≠ 0 → c y m = true) := by
  cases v with
  | none => simp
  | some y => by_cases hy : y = 0 <;> simp_all

lemma all_runtime_chunk (b : Option RuntimeBucket) (m : Movie) :
    ((match b with
      | some x => if x ≠ .any then [runtimeCond x] else []
      | none => ([] : List (Movie → Bool))).all (fun k => k m) = true) ↔
      (∀ x, b = some x → x ≠ .any → runtimeCond x m = true) := by
  cases b with
  | none => simp
  | some x => by_cases hx : x = .any <;> simp_all

/-- C2 (counterexample): the claim lists the region/language filter among
the fields that contribute a condition, but getMovies never consults the
regions field: a filter requesting region "en" still returns a
French-language movie, which fails the region condition the spec
describes. -/
theorem regions_ignored_counterexample :
    (getMovies { regions := some ["en"] } [cm1]).movies = [cm1] ∧
    regionCondSpec ["en"] cm1 = false := by
  decide

/-- C2 (amended): the regions and ageRating filter fields are never
consulted by getMovies and contribute no condition; a filter whose genre
list is present and nonempty, or whose release-year bound is present and
truthy, puts a JSON_SEARCH or YEAR call into the WHERE clause, neither of
which exists in PostgreSQL, so the whole call fails with an
undefined-function error and returns no movies; for every remaining filter
the selection predicate is the conjunction of exactly one condition per
present field (rating bounds, runtime bucket), absent fields contributing
none. -/
theorem moviePred_fields_and_errors (f : MovieFilter) (m : Movie) (db : List Movie) :
    (∀ rs ar, moviePred { f with regions := rs, ageRating := ar } m = moviePred f m) ∧
    ((usesJsonSearch f || usesYearFn f) = true →
      ∃ e, getMoviesPg f db = .error e) ∧
    ((usesJsonSearch f || usesYearFn f) = false →
      (getMoviesPg f db = .ok (getMovies f db) ∧
       (moviePred f m = true ↔
         ((∀ v, f.ratingMin = some v → v ≠ 0 → ratingMinCond v m = true) ∧
          (∀ v, f.ratingMax = some v → v ≠ 0 → ratingMaxCond v m = true) ∧
          (∀ b, f.runtime = some b → b ≠ RuntimeBucket.any → runtimeCond b m = true))))) := by
  refine ⟨fun rs ar => rfl, ?_, ?_⟩
  · intro h
    by_cases hj : usesJsonSearch f = true
    · exact ⟨_, by rw [getMoviesPg, if_pos hj]⟩
    · rw [Bool.or_eq_true] at h
      have hy : usesYearFn f = true := h.resolve_left hj
      exact ⟨_, by rw [getMoviesPg, if_neg hj, if_pos hy]⟩
  · intro h
    rw [Bool.or_eq_false_iff] at h
    obtain ⟨h1, h2⟩ := h
    have h2' := h2
    rw [usesYearFn, Bool.or_eq_false_iff] at h2'
    obtain ⟨hyf, hyt⟩ := h2'
    have hg : (match f.genres with
        | some ids => if ids.length > 0 then [genreCond ids] else []
        | none => ([] : List (Movie → Bool))) = [] := by
      rw [usesJsonSearch] at h1
      cases hfg : f.genres with
      | none => rfl
      | some ids =>
        rw [hfg] at h1
        simp at h1
        simp [h1]
    have hy1 : (match f.releaseYearFrom with
        | some y => if y ≠ 0 then [yearFromCond y] else []
        | none => ([] : List (Movie → Bool))) = [] := by
      cases hf : f.releaseYearFrom with
      | none => rfl
      | some y =>
        rw [hf] at hyf
        simp at hyf
        simp [hyf]
    have hy2 : (match f.releaseYearTo with
        | some y => if y ≠ 0 then [yearToCond y] else []
        | none => ([] : List (Movie → Bool))) = [] := by
      cases hf : f.releaseYearTo with
      | none => rfl
      | some y =>
        rw [hf] at hyt
        simp at hyt
        simp [hyt]
    refine ⟨by rw [getMoviesPg, if_neg (by simp [h1]), if_neg (by simp [h2])], ?_⟩
    rw [moviePred, movieConditions, hg, hy1, hy2]
    simp only [List.nil_append, List.all_append, Bool.and_eq_true, and_assoc]
    exact and_congr (all_num_chunk _ _ m)
      (and_congr (all_num_chunk _ _ m) (all_runtime_chunk f.runtime m))

lemma moviePred_runtime_set (f : MovieFilter) (x : Option RuntimeBucket) (m : Movie) :
    moviePred { f with runtime := x } m =
      (moviePred { f with runtime := none } m &&
        (match x with
         | some b => if b ≠ RuntimeBucket.any then runtimeCond b m else true
         | none => true)) := by
  cases x with
  | none => simp [moviePred, movieConditions]
  | some b =>
    by_cases hb : b = RuntimeBucket.any
    · subst hb
      simp [moviePred, movieConditions]
    · simp [moviePred, movieConditions, List.all_append, hb, Bool.and_assoc]

/-- C8: the runtime bucket filter of getMovies maps to numeric ranges:
under90 keeps exactly the matching movies with a non-null runtime below 90,
90to120 those with runtime between 90 and 120 inclusive, over120 those with
runtime above 120, and the any bucket (like an absent bucket) contributes
no runtime condition. -/
theorem runtime_bucket_ranges (f : MovieFilter) (m : Movie) :
    (moviePred { f with runtime := some .under90 } m = true ↔
      (moviePred { f with runtime := none } m = true ∧
        ∃ r, m.runtime = some r ∧ r < 90)) ∧
    (moviePred { f with runtime := some .between90and120 } m = true ↔
      (moviePred { f with runtime := none } m = true ∧
        ∃ r, m.runtime = some r ∧ 90 ≤ r ∧ r ≤ 120)) ∧
    (moviePred { f with runtime := some .over120 } m = true ↔
      (moviePred { f with runtime := none } m = true ∧
        ∃ r, m.runtime = some r ∧ 120 < r)) ∧
    moviePred { f with runtime := some .any } m =
      moviePred { f with runtime := none } m := by
  refine ⟨?_, ?_, ?_, ?_⟩ <;> rw [moviePred_runtime_set] <;>
    cases hr : m.runtime <;> simp [runtimeCond, hr]

lemma optIntDescLe_total (a b : Option Int) :
    optIntDescLe a b = true ∨ optIntDescLe b a = true := by
  cases a <;> cases b <;> simp [optIntDescLe] <;> omega

lemma optIntDescLe_trans (a b c : Option Int) :
    optIntDescLe a b = true → optIntDescLe b c = true → optIntDescLe a c = true := by
  cases a <;> cases b <;> cases c <;> simp [optIntDescLe] <;> omega

lemma optIntAscLe_total (a b : Option Int) :
    optIntAscLe a b = true ∨ optIntAscLe b a = true := by
  cases a <;> cases b <;> simp [optIntAscLe] <;> omega

lemma optIntAscLe_trans (a b c : Option Int) :
    optIntAscLe a b = true → optIntAscLe b c = true → optIntAscLe a c = true := by
  cases a <;> cases b <;> cases c <;> simp [optIntAscLe] <;> omega

lemma optStrDescLe_total (a b : Option String) :
    optStrDescLe a b = true ∨ optStrDescLe b a = true := by
  cases a <;> cases b <;> simp [optStrDescLe]
  exact le_total _ _

lemma optStrDescLe_trans (a b c : Option String) :
    optStrDescLe a b = true → optStrDescLe b c = true → optStrDescLe a c = true := by
  cases a <;> cases b <;> cases c <;> simp [optStrDescLe]
  exact fun h1 h2 => le_trans h2 h1

lemma optStrAscLe_total (a b : Option String) :
    optStrAscLe a b = true ∨ optStrAscLe b a = true := by
  cases a <;> cases b <;> simp [optStrAscLe]
  exact le_total _ _

lemma optStrAscLe_trans (a b c : Option String) :
    optStrAscLe a b = true → optStrAscLe b c = true → optStrAscLe a c = true := by
  cases a <;> cases b <;> cases c <;> simp [optStrAscLe]
  exact fun h1 h2 => le_trans h1 h2

lemma movieLeB_total (sb : SortKey) (so : SortDir) (a b : Movie) :
    movieLeB sb so a b = true ∨ movieLeB sb so b a = true := by
  cases sb <;> cases so <;>
    first
      | exact optIntDescLe_total _ _
      | exact optIntAscLe_total _ _
      | exact optStrDescLe_total _ _
      | exact optStrAscLe_total _ _
      | (simp [movieLeB]; exact le_total _ _)

lemma movieLeB_trans (sb : SortKey) (so : SortDir) (a b c : Movie) :
    movieLeB sb so a b = true → movieLeB sb so b c = true → movieLeB sb so a c = true := by
  cases sb <;> cases so <;>
    first
      | exact optIntDescLe_trans _ _ _
      | exact optIntAscLe_trans _ _ _
      | exact optStrDescLe_trans _ _ _
      | exact optStrAscLe_trans _ _ _
      | (simp [movieLeB]; exact fun h1 h2 => le_trans h2 h1)
      | (simp [movieLeB]; exact fun h1 h2 => le_trans h1 h2)

instance (sb : SortKey) (so : SortDir) : IsTotal Movie (movieOrder sb so) :=
  ⟨fun a b => movieLeB_total sb so a b⟩

instance (sb : SortKey) (so : SortDir) : IsTrans Movie (movieOrder sb so) :=
  ⟨fun a b c => movieLeB_trans sb so a b c⟩

/-- The example filter of the spec: ratingMin 7, sort by rating descending,
page 1, limit 5. -/
def exampleRatingFilter : MovieFilter :=
  { ratingMin := some 7, sortBy := some .rating, sortOrder := some .desc,
    page := 1, limit := 5 }

/-- C6: for the filter with ratingMin 7, sort by rating descending, page 1
and limit 5, getMovies returns at most 5 movies, every returned movie has a
non-null average rating of at least 7, and the returned list is ordered
descending by average rating. -/
theorem getMovies_example_rating_filter (db : List Movie) :
    (getMovies exampleRatingFilter db).movies.length ≤ 5 ∧
    (∀ m ∈ (getMovies exampleRatingFilter db).movies,
      ∃ v, m.voteAverage = some v ∧ 7 ≤ v) ∧
    (getMovies exampleRatingFilter db).movies.Pairwise
      (fun a b => optIntDescLe a.voteAverage b.voteAverage = true) := by
  refine ⟨?_, ?_, ?_⟩
  · have h5 : effLimit exampleRatingFilter = 5 := rfl
    simp only [getMovies, List.length_take, h5]
    omega
  · intro m hm
    have hm1 : m ∈ sortedMatching exampleRatingFilter db :=
      List.mem_of_mem_drop (List.mem_of_mem_take hm)
    have hm2 : m ∈ db.filter (moviePred exampleRatingFilter) :=
      (List.mem_insertionSort _).1 hm1
    have hp : moviePred exampleRatingFilter m = true := (List.mem_filter.mp hm2).2
    have hr : ratingMinCond 7 m = true := by
      simpa [moviePred, movieConditions, exampleRatingFilter] using hp
    cases hv : m.voteAverage with
    | none => rw [ratingMinCond, hv] at hr; exact absurd hr (by simp)
    | some v =>
      refine ⟨v, rfl, ?_⟩
      rw [ratingMinCond, hv] at hr
      exact of_decide_eq_true hr
  · have hs : (sortedMatching exampleRatingFilter db).Pairwise
        (movieOrder .rating .desc) :=
      List.sorted_insertionSort (movieOrder .rating .desc)
        (db.filter (moviePred exampleRatingFilter))
    have hsub : (getMovies exampleRatingFilter db).movies.Sublist
        (sortedMatching exampleRatingFilter db) :=
      (List.take_sublist _ _).trans (List.drop_sublist _ _)
    exact (List.Pairwise.sublist hsub hs).imp (fun hab => hab)

/-- C1 (witness): concrete instance of the page-size and total law. -/
theorem getMovies_page_size_total_witness :
    (getMovies {} [cm1]).movies.length ≤ effLimit {} ∧
    (getMovies {} [cm1]).total = ([cm1].filter (moviePred {})).length :=
  getMovies_page_size_total {} [cm1]

/-- C2 (witness): a genre-filtered getMovies call fails on the PostgreSQL
database with an undefined-function error. -/
theorem moviePred_fields_and_errors_witness :
    ∃ e, getMoviesPg { genres := some [35] } [cm1] = .error e :=
  (moviePred_fields_and_errors { genres := some [35] } cm1 [cm1]).2.1 (by decide)

/-- C4 (witness): concrete rateMovie call on an empty ratings table. -/
theorem rateMovie_always_errors_witness :
    rateMovie "u1" 1 5 ⟨[], 0⟩ =
      .error "there is no unique or exclusion constraint matching the ON CONFLICT specification" :=
  rateMovie_always_errors "u1" 1 5 ⟨[], 0⟩

/-- C6 (witness): concrete instance of the example-filter law on a
one-movie table. -/
theorem getMovies_example_rating_filter_witness :
    (getMovies exampleRatingFilter [cm1]).movies.length ≤ 5 ∧
    (∀ m ∈ (getMovies exampleRatingFilter [cm1]).movies,
      ∃ v, m.voteAverage = some v ∧ 7 ≤ v) ∧
    (getMovies exampleRatingFilter [cm1]).movies.Pairwise
      (fun a b => optIntDescLe a.voteAverage b.voteAverage = true) :=
  getMovies_example_rating_filter [cm1]

/-- C8 (witness): concrete instance of the any-bucket part of the runtime
range law. -/
theorem runtime_bucket_ranges_witness :
    moviePred { ({} : MovieFilter) with runtime := some .any } cm1 =
      moviePred { ({} : MovieFilter) with runtime := none } cm1 :=
  (runtime_bucket_ranges {} cm1).2.2.2

/-- C10 (witness): concrete instance of the zero-ratingMax law. -/
theorem zero_filter_values_ignored_witness :
    getMovies { ({} : MovieFilter) with ratingMax := some 0 } [cm1] =
      getMovies { ({} : MovieFilter) with ratingMax := none } [cm1] :=
  (zero_filter_values_ignored {} [cm1]).1

end CineMatch
